import Mathlib

/-!
Shallow embedding of the clover validity-testing engine
(src/clover/valid_pred_sets.py) and proofs about its specification.

Conventions of the embedding:
* numpy 1-D arrays are lists over a linear ordered field, 2-D arrays are
  lists of rows;
* a Python runtime failure is an explicit error value of type PyErr, and a
  function that can fail returns Except PyErr;
* a Python attribute that may not have been created is an Option field,
  and reading it goes through getAttr, which fails with attributeError
  when the attribute is absent;
* external collaborators (sklearn and pygam model fitting, scipy
  stats.norm.ppf, numpy sqrt and quantile, the seeded global numpy random
  stream, sklearn train_test_split) are oracles gathered in MLEnv; the
  trained-model objects themselves are Model records of their prediction
  functions.  Their internal behaviour is outside the repository, only the
  call structure around them is embedded;
* the two uses of the global numpy RNG are modelled as seeded streams:
  rng seed k is the k-th integer drawn after np.random.seed seed, and
  bern seed k the k-th Bernoulli draw; a uniform integer draw below n is
  rng seed k % n.
-/

/-- Runtime failure kinds.  The last three never occur in the code; they are
the failure kinds the specification document names, included so that claims
about them can be stated. -/
inductive PyErr where
  | indexError
  | attributeError
  | valueError
  | typeError
  | unboundLocalError
  | unsupportedEvaluator
  | shapeMismatch
  | noPruningCandidate
deriving DecidableEq, Repr

/-- A value a predict-style method can return: the Python None that the
fall-through branch of Valid_pred_sets.predict produces, a 1-D array, or a
2-D array (the one-column probability table returned whole). -/
inductive PyVal (α : Type) where
  | pynone
  | vec (v : List α)
  | mat (m : List (List α))
deriving DecidableEq

/-- A fitted coverage-evaluator model object.  predict_proba is the
sklearn-style probability table, predict_probaVec the pygam-style 1-D
probability vector, predictRaw the plain predict used for the nnet family.
refitProba and refitRaw are the one-shot clone-and-refit (resp.
deepcopy-and-refit) evaluations used by retrain; refitRawCpu is the
deepcopy-move_to_cpu-refit variant used only by the parallel worker
retrain_par. -/
structure Model (α : Type) where
  isSklearn : Bool
  predict_proba : List (List α) → List (List α)
  predict_probaVec : List (List α) → List α
  predictRaw : List (List α) → List (List α)
  refitProba : List (List α) → List α → List (List α) → List (List α)
  refitRaw : List (List α) → List α → List (List α) → List (List α)
  refitRawCpu : List (List α) → List α → List (List α) → List (List α)

/-- The coverage_evaluator attribute: either a family-tag string or a
custom estimator object, represented by its fit behaviour. -/
inductive CETag (α : Type) where
  | str (s : String)
  | custom (fitFn : List (List α) → List α → Model α)

/-- Python string equality test x == s, false when x is an object. -/
def CETag.isStrEq : CETag α → String → Bool
  | CETag.str s, t => s == t
  | CETag.custom _, _ => false

/-- The external collaborators of the engine, as oracles. -/
structure MLEnv (α : Type) where
  sqrtFn : α → α
  ppf : α → α
  quantile : List α → α → α
  rng : ℕ → ℕ → ℕ
  bern : ℕ → ℕ → Bool
  ttsMain : List (List α) → List α →
    List (List α) × List (List α) × List α × List α
  ttsPrune : List (List α) → List α →
    List (List α) × List (List α) × List α × List α
  cartPath : List (List α) → List α → List α
  cartPredict : α → List (List α) → List α → List (List α) → List α
  fitCART : Option α → List (List α) → List α → Model α
  fitRF : List (List α) → List α → Model α
  fitGAM : List (List α) → List α → Model α
  gamRefit : List (List α) → List α → List (List α) → List α

/-- The constructor arguments of Valid_pred_sets that the embedded methods
depend on.  conf, isnc and islcp only determine the interval matrix handed
to fit, which the embedding takes directly as the preds argument of fit. -/
structure VPSCfg (α : Type) where
  alpha : α
  coverage_evaluator : CETag α
  prune : Bool
  split_train : Bool

/-- The state of a fitted Valid_pred_sets analysis.  X_test and w_test are
Option because fit only creates these attributes when split_train is
true. -/
structure VPS (α : Type) where
  alpha : α
  coverage_evaluator : CETag α
  split_train : Bool
  X_train : List (List α)
  w_train : List α
  X_test : Option (List (List α))
  w_test : Option (List α)
  model : Model α

/-- Reading a possibly missing attribute: AttributeError when absent. -/
def getAttr : Option β → Except PyErr β
  | some b => Except.ok b
  | Option.none => Except.error PyErr.attributeError

/-- Running a list of independent repetitions and collecting their results
in submission order, stopping at the first failure.  This is both the
sequential for-loop and the pool submission plus in-order result.get
collection of the parallel mode. -/
def collectE (f : γ → Except PyErr β) : List γ → Except PyErr (List β)
  | [] => Except.ok []
  | i :: is => (f i).bind (fun b => (collectE f is).map (fun bs => b :: bs))

variable {α : Type} [LinearOrderedField α]

/-- numpy absolute value. -/
def npAbs (x : α) : α := if 0 ≤ x then x else -x

/-- numpy mean of a 1-D array. -/
def meanList (v : List α) : α := v.sum / (v.length : α)

/-- Elementwise absolute deviations from a constant. -/
def absDevs (c : α) (v : List α) : List α := v.map (fun x => npAbs (x - c))

/-- np.mean of np.abs(r - c): averages over all entries of a 1-D or 2-D
array; on None it is the TypeError of subtracting from None. -/
def statOf : PyVal α → α → Except PyErr α
  | PyVal.pynone, _ => Except.error PyErr.typeError
  | PyVal.vec v, c => Except.ok (meanList (absDevs c v))
  | PyVal.mat m, c => Except.ok (meanList (absDevs c m.flatten))

/-- np.max of np.abs(r - c); np.max of an empty array is a ValueError. -/
def maxAbsDev : PyVal α → α → Except PyErr α
  | PyVal.pynone, _ => Except.error PyErr.typeError
  | PyVal.vec v, c =>
      match (absDevs c v).max? with
      | some t => Except.ok t
      | Option.none => Except.error PyErr.valueError
  | PyVal.mat m, c =>
      match (absDevs c m.flatten).max? with
      | some t => Except.ok t
      | Option.none => Except.error PyErr.valueError

/-- 0/1 indicator as a field element. -/
def indi (b : Prop) [Decidable b] : α := if b then 1 else 0

/-- numpy evaluation of (t_b > t_obs).mean() where t_b has length B and
t_obs is the PAIR returned by compute_dif.  numpy broadcasts shape (B,)
against shape (2,): elementwise for B = 2, by stretching for B = 1, and a
ValueError for every other B. -/
def broadcastGtMean (t_b : List α) (p : α × α) : Except PyErr α :=
  match t_b with
  | [a] => Except.ok ((indi (p.1 < a) + indi (p.2 < a)) / 2)
  | [a, b] => Except.ok ((indi (p.1 < a) + indi (p.2 < b)) / 2)
  | _ => Except.error PyErr.valueError

/-- pred[:, 1]: the second column, an IndexError when a row is too short. -/
def col1 : List (List α) → Option (List α)
  | [] => some []
  | r :: rs =>
      match r.get? 1 with
      | some x => (col1 rs).map (fun c => x :: c)
      | Option.none => Option.none

/-- The binary-probability shape branch shared verbatim by predict, retrain
and retrain_par: if the table has one column (tested on row 0) the whole
table is returned, otherwise column 1; an empty table is the IndexError of
pred[0]. -/
def posBranch (pred : List (List α)) : Except PyErr (PyVal α) :=
  match pred with
  | [] => Except.error PyErr.indexError
  | r0 :: rest =>
      if r0.length = 1 then Except.ok (PyVal.mat (r0 :: rest))
      else
        match col1 (r0 :: rest) with
        | some c => Except.ok (PyVal.vec c)
        | Option.none => Except.error PyErr.indexError

/-- The labelling loop of fit: for i in range(len(y)),
w[i] = int(y[i] >= preds[i][0] and y[i] <= preds[i][1]); indexing preds
past its end is an IndexError, hence the failure when preds is exhausted
before y. -/
def buildW (y : List α) (preds : List (α × α)) : Option (List α) :=
  match y, preds with
  | [], _ => some []
  | _ :: _, [] => Option.none
  | yi :: ys, p :: ps =>
      (buildW ys ps).map
        (fun rest => (if p.1 ≤ yi ∧ yi ≤ p.2 then (1 : α) else 0) :: rest)

/-- The labelling step as an Except computation. -/
def labelW (y : List α) (preds : List (α × α)) : Except PyErr (List α) :=
  match buildW y preds with
  | some w => Except.ok w
  | Option.none => Except.error PyErr.indexError

/-- sklearn train_test_split: validates that its arrays have one common
length (ValueError otherwise), then splits via the external oracle. -/
def train_test_split_chk (env : MLEnv α) (X : List (List α)) (w : List α) :
    Except PyErr (List (List α) × List (List α) × List α × List α) :=
  if X.length = w.length then Except.ok (env.ttsMain X w)
  else Except.error PyErr.valueError

/-- sklearn brier_score_loss: mean squared difference. -/
def brier (w p : List α) : α :=
  meanList (List.zipWith (fun wi pi => (wi - pi) ^ 2) w p)

/-- The selection loop of prune_tree.  The accumulator is the pair
(current_loss, optim_ccp); Option.none is the initial state in which
current_loss is float inf and optim_ccp is unbound (every finite candidate
loss beats inf, so the first candidate always enters). -/
def selectLoop (loss : α → α) : List α → Option (α × α) → Option (α × α)
  | [], acc => acc
  | a :: as, acc =>
      selectLoop loss as
        (match acc with
         | Option.none => some (loss a, a)
         | some (cl, c) => if loss a < cl then some (loss a, a) else some (cl, c))

/-- Valid_pred_sets.prune_tree: walks the cost-complexity pruning path in
the order sklearn yields it (increasing), refits a tree per candidate
(cartPredict oracle), scores it by Brier loss on the held-out half and
keeps the first strict improvement.  When the path is empty the final
return reads the never-assigned optim_ccp: UnboundLocalError. -/
def prune_tree (env : MLEnv α) (Xtr Xva : List (List α)) (wtr wva : List α) :
    Except PyErr α :=
  match selectLoop (fun a => brier wva (env.cartPredict a Xtr wtr Xva))
      (env.cartPath Xtr wtr) Option.none with
  | some (_, optim) => Except.ok optim
  | Option.none => Except.error PyErr.unboundLocalError

/-- Valid_pred_sets._init_coverage_evaluator: the elif chain over the
family tag.  The final else calls set_params on the coverage_evaluator
attribute itself: for a custom estimator object this fits it, but for any
unrecognised tag string it is the AttributeError of str.set_params. -/
def initCoverageEvaluator (env : MLEnv α) (cfg : VPSCfg α)
    (Xtr : List (List α)) (wtr : List α) : Except PyErr (Model α) :=
  if cfg.coverage_evaluator.isStrEq ("CART") then
    (if cfg.prune then
      (match env.ttsPrune Xtr wtr with
       | (Xtp, Xvp, wtp, wvp) =>
          (prune_tree env Xtp Xvp wtp wvp).map
            (fun optim => env.fitCART (some optim) Xtr wtr))
     else Except.ok (env.fitCART Option.none Xtr wtr))
  else if cfg.coverage_evaluator.isStrEq ("RF") then
    Except.ok (env.fitRF Xtr wtr)
  else if cfg.coverage_evaluator.isStrEq ("GAM") then
    Except.ok (env.fitGAM Xtr wtr)
  else
    match cfg.coverage_evaluator with
    | CETag.str _ => Except.error PyErr.attributeError
    | CETag.custom fitFn => Except.ok (fitFn Xtr wtr)

/-- Valid_pred_sets.fit: label, split (or not), then initialise the
coverage evaluator.  The interval matrix preds produced by the external
conformal predictor through one of the three adapter conventions is taken
as an argument. -/
def fit (env : MLEnv α) (cfg : VPSCfg α) (preds : List (α × α))
    (X_calib : List (List α)) (y_calib : List α) : Except PyErr (VPS α) :=
  (labelW y_calib preds).bind (fun w =>
    (if cfg.split_train then
        (train_test_split_chk env X_calib w).map
          (fun q => (q.1, some q.2.1, q.2.2.1, some q.2.2.2))
      else Except.ok (X_calib, Option.none, w, Option.none)).bind (fun q =>
      (initCoverageEvaluator env cfg q.1 q.2.2.1).map (fun m =>
        { alpha := cfg.alpha, coverage_evaluator := cfg.coverage_evaluator,
          split_train := cfg.split_train, X_train := q.1, X_test := q.2.1,
          w_train := q.2.2.1, w_test := q.2.2.2, model := m })))

/-- Valid_pred_sets.predict: the probability of the positive class.  The
elif chain has no final else, so an unsupported tag on a non-sklearn model
silently returns Python None. -/
def VPS.predict (s : VPS α) (X : List (List α)) : Except PyErr (PyVal α) :=
  if s.coverage_evaluator.isStrEq ("RF") || s.model.isSklearn then
    posBranch (s.model.predict_proba X)
  else if s.coverage_evaluator.isStrEq ("GAM") then
    Except.ok (PyVal.vec (s.model.predict_probaVec X))
  else if s.coverage_evaluator.isStrEq ("nnet") then
    Except.ok (PyVal.vec (s.model.predictRaw X).flatten)
  else Except.ok PyVal.pynone

/-- Valid_pred_sets.retrain: refit a fresh evaluator of the same family on
the given labels and evaluate it.  The sklearn and GAM branches evaluate on
the attribute self.X_test (not the X_test argument), the final branch on
the argument. -/
def VPS.retrain (env : MLEnv α) (s : VPS α) (Xtr : List (List α))
    (new_w : List α) (XteArg : List (List α)) : Except PyErr (PyVal α) :=
  if s.coverage_evaluator.isStrEq ("RF") || s.model.isSklearn then
    (getAttr s.X_test).bind (fun xt => posBranch (s.model.refitProba Xtr new_w xt))
  else if s.coverage_evaluator.isStrEq ("GAM") then
    (getAttr s.X_test).map (fun xt => PyVal.vec (env.gamRefit Xtr new_w xt))
  else
    Except.ok (PyVal.vec (s.model.refitRaw Xtr new_w XteArg).flatten)

/-- Module-level retrain_par, the body shipped to Monte Carlo worker
processes: same branches as retrain except that everything, including the
evaluation fold, comes in as arguments, and the final branch moves the
model to cpu before refitting. -/
def retrain_par (env : MLEnv α) (ce : CETag α) (m : Model α)
    (Xtr : List (List α)) (new_w : List α) (Xte : List (List α)) :
    Except PyErr (PyVal α) :=
  if ce.isStrEq ("RF") || m.isSklearn then
    posBranch (m.refitProba Xtr new_w Xte)
  else if ce.isStrEq ("GAM") then
    Except.ok (PyVal.vec (env.gamRefit Xtr new_w Xte))
  else
    Except.ok (PyVal.vec (m.refitRawCpu Xtr new_w Xte).flatten)

/-- Module-level _retrain_loop_par: seed the worker RNG, draw a synthetic
Bernoulli(1 - alpha) coverage vector of the training-fold length, refit
and evaluate, and return the mean absolute deviation statistic. -/
def retrain_loop_par (env : MLEnv α) (ce : CETag α) (m : Model α) (alpha : α)
    (Xtr : List (List α)) (wtr : List α) (Xte : List (List α)) (seed : ℕ) :
    Except PyErr α :=
  (retrain_par env ce m Xtr
      ((List.range wtr.length).map (fun j => if env.bern seed j then (1 : α) else 0))
      Xte).bind
    (fun r => statOf r (1 - alpha))

/-- The index draw np.random.randint(n, size=B) after np.random.seed seed,
starting at stream position start: B uniform draws below n. -/
def randints (env : MLEnv α) (seed start n B : ℕ) : List ℕ :=
  (List.range B).map (fun j => env.rng seed (start + j) % n)

/-- Module-level bootstrap_par, the body shipped to bootstrap worker
processes: seed, draw B resampling indices from the training fold, refit
on the resampled rows and evaluate. -/
def bootstrap_par (env : MLEnv α) (B : ℕ) (alpha : α) (ce : CETag α)
    (m : Model α) (Xtr : List (List α)) (wtr : List α) (Xte : List (List α))
    (seed : ℕ) : Except PyErr α :=
  (retrain_par env ce m
      ((randints env seed 0 Xtr.length B).map (fun k => Xtr.getD k []))
      ((randints env seed 0 Xtr.length B).map (fun k => wtr.getD k 0))
      Xte).bind
    (fun r => statOf r (1 - alpha))

/-- A Python object in an argument tuple of a pool.apply_async dispatch. -/
inductive PyObj (α : Type) where
  | nat (n : ℕ)
  | num (x : α)
  | tag (t : CETag α)
  | mdl (m : Model α)
  | mat (m : List (List α))
  | vec (v : List α)

/-- Calling bootstrap_par with a positional argument tuple: the eight
parameters of its def bind exactly eight arguments of the matching kinds;
any other tuple is the TypeError the worker raises and result.get
re-raises. -/
def applyBootstrapPar (env : MLEnv α) : List (PyObj α) → Except PyErr α
  | [PyObj.nat B, PyObj.num alpha, PyObj.tag ce, PyObj.mdl m,
     PyObj.mat Xtr, PyObj.vec wtr, PyObj.mat Xte, PyObj.nat seed] =>
      bootstrap_par env B alpha ce m Xtr wtr Xte seed
  | _ => Except.error PyErr.typeError

/-- Valid_pred_sets.compute_dif: evaluate the fitted evaluator on the
held-out fold (the training fold in no-split mode) and return the pair of
mean and max absolute deviation from 1 - alpha. -/
def VPS.compute_dif (s : VPS α) : Except PyErr (α × α) :=
  (if s.split_train then (getAttr s.X_test).bind (fun xt => s.predict xt)
   else s.predict s.X_train).bind
    (fun r =>
      (statOf r (1 - s.alpha)).bind (fun t1 =>
        (maxAbsDev r (1 - s.alpha)).map (fun t2 => (t1, t2))))

/-- The dictionary monte_carlo_test returns.  observed is the full pair
compute_dif produced, because the code binds that pair to its t_obs. -/
structure MCResult (α : Type) where
  pValue : α
  observed : α × α
deriving DecidableEq

/-- Valid_pred_sets.monte_carlo_test.  Note the bug this embedding keeps:
t_obs is bound to the whole pair compute_dif returns, so the final
(t_b > t_obs).mean() broadcasts the length-B statistic vector against a
length-2 array.  Sequentially each repetition draws its synthetic labels
from the master-seeded stream; in parallel mode each repetition gets a
pre-drawn sub-seed below 1e8 and runs retrain_loop_par. -/
def VPS.monte_carlo_test (env : MLEnv α) (s : VPS α) (B seed : ℕ)
    (par : Bool) : Except PyErr (MCResult α) :=
  s.compute_dif.bind (fun tObs =>
    (if !par then
        collectE (fun i =>
          (getAttr s.X_test).bind (fun xt =>
            (s.retrain env s.X_train
                ((List.range s.w_train.length).map
                  (fun j => if env.bern seed (i * s.w_train.length + j) then (1 : α) else 0))
                xt).bind
              (fun r => statOf r (1 - s.alpha))))
          (List.range B)
      else
        collectE (fun j =>
          (getAttr s.X_test).bind (fun xt =>
            retrain_loop_par env s.coverage_evaluator s.model s.alpha
              s.X_train s.w_train xt (env.rng seed j % 100000000)))
          (List.range B)).bind
      (fun t_b =>
        (broadcastGtMean t_b tObs).map (fun pv => { pValue := pv, observed := tObs })))

/-- The dictionary bootstrap_ci returns. -/
structure BootResult (α : Type) where
  tObs : α
  seInt : α × α
  percentInt : α × α
deriving DecidableEq

/-- Lines 339-349 of bootstrap_ci: the Bessel-corrected bootstrap standard
error, the normal-approximation interval around t_obs, and the percentile
interval. -/
def bootstrapIntervals (env : MLEnv α) (B : ℕ) (sig_b t_obs : α)
    (t_vec : List α) : BootResult α :=
  { tObs := t_obs,
    seInt :=
      (t_obs - env.ppf (1 - sig_b / 2) *
          env.sqrtFn (1 / ((B : α) - 1) *
            (t_vec.map (fun t => (t - meanList t_vec) ^ 2)).sum),
       t_obs + env.ppf (1 - sig_b / 2) *
          env.sqrtFn (1 / ((B : α) - 1) *
            (t_vec.map (fun t => (t - meanList t_vec) ^ 2)).sum)),
    percentInt := (env.quantile t_vec (sig_b / 2), env.quantile t_vec (1 - sig_b / 2)) }

/-- One sequential bootstrap repetition (lines 305-311): draw B resampling
indices (stream block i) from the training fold, refit on the resampled
rows, evaluate on the held-out fold xt. -/
def bootstrapRep (env : MLEnv α) (s : VPS α) (xt : List (List α))
    (B i seed : ℕ) : Except PyErr α :=
  (s.retrain env
      ((randints env seed (i * B) s.X_train.length B).map (fun k => s.X_train.getD k []))
      ((randints env seed (i * B) s.X_train.length B).map (fun k => s.w_train.getD k 0))
      xt).bind
    (fun r => statOf r (1 - s.alpha))

/-- Valid_pred_sets.bootstrap_ci.  Sequential mode runs bootstrapRep B
times; parallel mode submits, for each pre-drawn sub-seed, the NINE-entry
argument tuple of the source (self.alpha appears twice) to the
eight-parameter bootstrap_par. -/
def VPS.bootstrap_ci (env : MLEnv α) (s : VPS α) (B : ℕ) (sig_b : α)
    (seed : ℕ) (par : Bool) : Except PyErr (BootResult α) :=
  (getAttr s.X_test).bind (fun xt =>
    (s.predict xt).bind (fun r =>
      (statOf r (1 - s.alpha)).bind (fun t_obs =>
        (if !par then
            collectE (fun i => bootstrapRep env s xt B i seed) (List.range B)
          else
            collectE (fun j =>
              (getAttr s.X_test).bind (fun xt2 =>
                applyBootstrapPar env
                  [PyObj.nat B, PyObj.num s.alpha, PyObj.tag s.coverage_evaluator,
                   PyObj.mdl s.model, PyObj.num s.alpha, PyObj.mat s.X_train,
                   PyObj.vec s.w_train, PyObj.mat xt2,
                   PyObj.nat (env.rng seed j % 100000000)]))
              (List.range B)).bind
          (fun t_vec => Except.ok (bootstrapIntervals env B sig_b t_obs t_vec)))))

/-- A trivial fitted model used to instantiate theorems on concrete
states: a two-column constant probability table and constant refits. -/
def constModel : Model ℚ :=
  { isSklearn := true,
    predict_proba := fun _ => [[0, 0]],
    predict_probaVec := fun _ => [0],
    predictRaw := fun _ => [[0]],
    refitProba := fun _ _ _ => [[0, 0]],
    refitRaw := fun _ _ _ => [[0]],
    refitRawCpu := fun _ _ _ => [[0]] }

/-- constModel marked as not coming from sklearn. -/
def modelNS : Model ℚ := { constModel with isSklearn := false }

/-- A concrete oracle environment over the rationals. -/
def envQ : MLEnv ℚ :=
  { sqrtFn := id,
    ppf := fun q => q - 1 / 2,
    quantile := fun _ _ => 0,
    rng := fun _ _ => 0,
    bern := fun _ _ => false,
    ttsMain := fun X w => (X, X, w, w),
    ttsPrune := fun X w => (X, X, w, w),
    cartPath := fun _ _ => [0],
    cartPredict := fun _ _ _ _ => [0],
    fitCART := fun _ _ _ => constModel,
    fitRF := fun _ _ => constModel,
    fitGAM := fun _ _ => constModel,
    gamRefit := fun _ _ _ => [0] }

/-- envQ with an empty cost-complexity pruning path. -/
def envE : MLEnv ℚ := { envQ with cartPath := fun _ _ => [] }

/-- A concrete fitted analysis in split mode. -/
def s0 : VPS ℚ :=
  { alpha := 1,
    coverage_evaluator := CETag.str ("CART"),
    split_train := true,
    X_train := [[0]],
    w_train := [0],
    X_test := some [[0]],
    w_test := some [0],
    model := constModel }

/-- A concrete analysis whose family tag is an unsupported string and whose
model is not an sklearn object. -/
def sFoo : VPS ℚ :=
  { s0 with coverage_evaluator := CETag.str ("foo"), model := modelNS }

/-- Constructor arguments with the unsupported tag. -/
def cfgFoo : VPSCfg ℚ :=
  { alpha := 1, coverage_evaluator := CETag.str ("foo"), prune := true,
    split_train := true }

/-- Constructor arguments for a split-mode CART analysis. -/
def cfgS : VPSCfg ℚ :=
  { alpha := 1, coverage_evaluator := CETag.str ("CART"), prune := true,
    split_train := true }

/-- Constructor arguments for a no-split CART analysis without pruning. -/
def cfgNS : VPSCfg ℚ :=
  { alpha := 1, coverage_evaluator := CETag.str ("CART"), prune := false,
    split_train := false }

lemma exbind_ok {ε β γ : Type _} {x : Except ε β} {f : β → Except ε γ} {c : γ} :
    x.bind f = Except.ok c ↔ ∃ b, x = Except.ok b ∧ f b = Except.ok c := by
  cases x <;> simp [Except.bind]

lemma exmap_ok {ε β γ : Type _} {x : Except ε β} {f : β → γ} {c : γ} :
    x.map f = Except.ok c ↔ ∃ b, x = Except.ok b ∧ f b = c := by
  cases x <;> simp [Except.map]

lemma buildW_eq_zipWith (y : List α) :
    ∀ preds : List (α × α), y.length ≤ preds.length →
      buildW y preds =
        some (List.zipWith
          (fun yi p => if p.1 ≤ yi ∧ yi ≤ p.2 then (1 : α) else 0) y preds) := by
  induction y with
  | nil => intro preds _; simp [buildW]
  | cons yi ys ih =>
      intro preds h
      cases preds with
      | nil => simp at h
      | cons p ps =>
          have h2 : ys.length ≤ ps.length := by
            simpa [Nat.succ_le_succ_iff] using h
          simp [buildW, ih ps h2]

lemma zipWith_indicator_mem (y : List α) :
    ∀ (preds : List (α × α)) (x : α),
      x ∈ List.zipWith
        (fun yi p => if p.1 ≤ yi ∧ yi ≤ p.2 then (1 : α) else 0) y preds →
      x = 0 ∨ x = 1 := by
  induction y with
  | nil => intro preds x hx; simp at hx
  | cons yi ys ih =>
      intro preds x hx
      cases preds with
      | nil => simp at hx
      | cons p ps =>
          rcases List.mem_cons.mp hx with h | h
          · subst h; by_cases hc : p.1 ≤ yi ∧ yi ≤ p.2 <;> simp [hc]
          · exact ih ps x h

/-- C7: the labelling step succeeds on matched lengths, the indicator is
the elementwise inclusive-interval test 1 when lower <= y <= upper and 0
otherwise, and every entry of w lies in the set containing 0 and 1. -/
theorem C7_coverage_indicator (y : List α) (preds : List (α × α))
    (hle : y.length ≤ preds.length) :
    ∃ w, labelW y preds = Except.ok w ∧
      w = List.zipWith
        (fun yi p => if p.1 ≤ yi ∧ yi ≤ p.2 then (1 : α) else 0) y preds ∧
      ∀ x ∈ w, x = 0 ∨ x = 1 := by
  refine ⟨_, ?_, rfl, ?_⟩
  · simp [labelW, buildW_eq_zipWith y preds hle]
  · intro x hx
    exact zipWith_indicator_mem y preds x hx

/-- Witness for C7 at a concrete sample. -/
theorem C7_coverage_indicator_witness :
    ([(0 : ℚ), 5]).length ≤ ([((0 : ℚ), (1 : ℚ)), ((0 : ℚ), (1 : ℚ))]).length ∧
    ∃ w, labelW [(0 : ℚ), 5] [((0 : ℚ), (1 : ℚ)), ((0 : ℚ), (1 : ℚ))] = Except.ok w ∧
      w = List.zipWith
        (fun yi p => if p.1 ≤ yi ∧ yi ≤ p.2 then (1 : ℚ) else 0)
        [(0 : ℚ), 5] [((0 : ℚ), (1 : ℚ)), ((0 : ℚ), (1 : ℚ))] ∧
      ∀ x ∈ w, x = 0 ∨ x = 1 :=
  ⟨by decide, C7_coverage_indicator _ _ (by decide)⟩

lemma flatten_one_col (pred : List (List α)) (h : ∀ r ∈ pred, r.length = 1) :
    pred.flatten = pred.map (fun r => r.headD 0) := by
  induction pred with
  | nil => rfl
  | cons r rs ih =>
      have hr : r.length = 1 := h r (List.mem_cons_self r rs)
      have hrs : ∀ q ∈ rs, q.length = 1 := fun q hq => h q (List.mem_cons_of_mem r hq)
      cases r with
      | nil => simp at hr
      | cons a as =>
          cases as with
          | nil => simp [ih hrs]
          | cons b bs => simp at hr

lemma col1_two_col (pred : List (List α)) (h : ∀ r ∈ pred, r.length = 2) :
    col1 pred = some (pred.map (fun r => r.getD 1 0)) := by
  induction pred with
  | nil => rfl
  | cons r rs ih =>
      have hr : r.length = 2 := h r (List.mem_cons_self r rs)
      have hrs : ∀ q ∈ rs, q.length = 2 := fun q hq => h q (List.mem_cons_of_mem r hq)
      match r, hr with
      | [a, b], _ => simp [col1, ih hrs, List.getD]

/-- C9: with the sklearn-style branch active, a one-column probability
table is returned whole and its entries, row by row, are exactly that
single column, so the mean-absolute-deviation statistic computed from it
equals the one computed from the column; a two-column table yields column
index 1; and the worker-side retrain_par evaluation goes through the same
shape branch; neither case is an error. -/
theorem C9_prob_table_shape (env : MLEnv α) (s : VPS α) (X : List (List α))
    (pred : List (List α))
    (hsk : (s.coverage_evaluator.isStrEq ("RF") || s.model.isSklearn) = true)
    (hpred : s.model.predict_proba X = pred) (hne : pred ≠ []) :
    ((∀ r ∈ pred, r.length = 1) →
      s.predict X = Except.ok (PyVal.mat pred) ∧
      pred.flatten = pred.map (fun r => r.headD 0) ∧
      ∀ c : α, statOf (PyVal.mat pred) c =
        statOf (PyVal.vec (pred.map (fun r => r.headD 0))) c) ∧
    ((∀ r ∈ pred, r.length = 2) →
      s.predict X = Except.ok (PyVal.vec (pred.map (fun r => r.getD 1 0)))) ∧
    (∀ Xtr w Xte, retrain_par env s.coverage_evaluator s.model Xtr w Xte =
      posBranch (s.model.refitProba Xtr w Xte)) := by
  refine ⟨?_, ?_, ?_⟩
  · intro h1
    cases pred with
    | nil => exact absurd rfl hne
    | cons r0 rest =>
        have hr0 : r0.length = 1 := h1 r0 (List.mem_cons_self r0 rest)
        refine ⟨?_, flatten_one_col _ h1, ?_⟩
        · simp [VPS.predict, hsk, hpred, posBranch, hr0]
        · intro c
          simp [statOf, flatten_one_col _ h1]
  · intro h2
    cases pred with
    | nil => exact absurd rfl hne
    | cons r0 rest =>
        have hr0 : r0.length = 2 := h2 r0 (List.mem_cons_self r0 rest)
        have : r0.length ≠ 1 := by omega
        simp [VPS.predict, hsk, hpred, posBranch, this, col1_two_col _ h2]
  · intro Xtr w Xte
    simp [retrain_par, hsk]

/-- Witness for C9 on a concrete two-column table. -/
theorem C9_prob_table_shape_witness :
    ((s0.coverage_evaluator.isStrEq ("RF") || s0.model.isSklearn) = true ∧
      s0.model.predict_proba [[0]] = [[0, 0]] ∧ ([[(0 : ℚ), 0]]) ≠ []) ∧
    ((∀ r ∈ [[(0 : ℚ), 0]], r.length = 2) →
      s0.predict [[0]] = Except.ok (PyVal.vec ([[(0 : ℚ), 0]].map (fun r => r.getD 1 0)))) := by
  have hsk : (s0.coverage_evaluator.isStrEq ("RF") || s0.model.isSklearn) = true := by
    simp [s0, constModel, CETag.isStrEq]
  have hpred : s0.model.predict_proba [[0]] = [[(0 : ℚ), 0]] := by
    simp [s0, constModel]
  exact ⟨⟨hsk, hpred, by simp⟩,
    (C9_prob_table_shape envQ s0 [[0]] [[(0 : ℚ), 0]] hsk hpred (by simp)).2.1⟩

/-- C3 amended: an unsupported family-tag string with no custom estimator
does fail at fit time, but with the AttributeError of calling set_params
on a plain string, not with an UnsupportedEvaluator; and predict under
such a tag on a non-sklearn model falls through every branch and silently
returns Python None. -/
theorem C3_unsupported_tag_behavior (env : MLEnv α) (cfg : VPSCfg α)
    (s : VPS α) (tg : String) (Xtr X : List (List α)) (wtr : List α)
    (hcfg : cfg.coverage_evaluator = CETag.str tg)
    (hs : s.coverage_evaluator = CETag.str tg)
    (h1 : tg ≠ "CART") (h2 : tg ≠ "RF") (h3 : tg ≠ "GAM") (h4 : tg ≠ "nnet")
    (hm : s.model.isSklearn = false) :
    initCoverageEvaluator env cfg Xtr wtr = Except.error PyErr.attributeError ∧
    s.predict X = Except.ok PyVal.pynone := by
  constructor
  · simp [initCoverageEvaluator, hcfg, CETag.isStrEq, h1, h2, h3]
  · simp [VPS.predict, hs, hm, CETag.isStrEq, h1, h2, h3, h4]

/-- C3 counterexample to the claim as stated: at the concrete tag string
foo, fit-time initialisation fails with AttributeError rather than
UnsupportedEvaluator, and predict silently returns None rather than
failing. -/
theorem C3_unsupported_tag_counterexample :
    initCoverageEvaluator envQ cfgFoo [] [] = Except.error PyErr.attributeError ∧
    (Except.error PyErr.attributeError : Except PyErr (Model ℚ)) ≠
      Except.error PyErr.unsupportedEvaluator ∧
    sFoo.predict [] = Except.ok PyVal.pynone := by
  refine ⟨?_, by simp, ?_⟩
  · simp [initCoverageEvaluator, cfgFoo, CETag.isStrEq]
  · simp [VPS.predict, sFoo, s0, modelNS, constModel, CETag.isStrEq]

/-- Witness for the amended C3 at the concrete tag string foo. -/
theorem C3_unsupported_tag_witness :
    (cfgFoo.coverage_evaluator = CETag.str ("foo") ∧
      sFoo.coverage_evaluator = CETag.str ("foo") ∧
      sFoo.model.isSklearn = false) ∧
    (initCoverageEvaluator envQ cfgFoo [] [] = Except.error PyErr.attributeError ∧
      sFoo.predict [] = Except.ok PyVal.pynone) :=
  ⟨⟨rfl, rfl, rfl⟩,
    C3_unsupported_tag_behavior envQ cfgFoo sFoo ("foo") [] [] [] rfl rfl
      (by decide) (by decide) (by decide) (by decide) rfl⟩

lemma buildW_none (y : List α) :
    ∀ preds : List (α × α), preds.length < y.length → buildW y preds = Option.none := by
  induction y with
  | nil => intro preds h; simp at h
  | cons yi ys ih =>
      intro preds h
      cases preds with
      | nil => rfl
      | cons p ps =>
          have h2 : ps.length < ys.length := by simpa [Nat.succ_lt_succ_iff] using h
          simp [buildW, ih ps h2]

/-- C4 amended: mismatched array lengths do make fit fail before any model
fitting, but not with a ShapeMismatch: when y is longer than the interval
matrix the labelling loop itself raises IndexError, and when y is shorter
the labelling succeeds and the subsequent train_test_split raises its
inconsistent-length ValueError. -/
theorem C4_shape_mismatch_behavior (env : MLEnv α) (cfg : VPSCfg α)
    (preds : List (α × α)) (X : List (List α)) (y : List α)
    (hsp : cfg.split_train = true) (hp : preds.length = X.length) :
    (X.length < y.length → fit env cfg preds X y = Except.error PyErr.indexError) ∧
    (y.length < X.length → fit env cfg preds X y = Except.error PyErr.valueError) := by
  constructor
  · intro h
    have hnone : buildW y preds = Option.none := buildW_none y preds (by omega)
    simp [fit, labelW, hnone, Except.bind]
  · intro h
    have hle : y.length ≤ preds.length := by omega
    have hw := buildW_eq_zipWith y preds hle
    have hmin : y.length ⊓ preds.length = y.length := min_eq_left hle
    have hne : X.length ≠ y.length ⊓ preds.length := by rw [hmin]; omega
    simp [fit, labelW, hw, hsp, train_test_split_chk, hne, Except.bind, Except.map]

/-- C4 counterexample to the claim as stated: with one feature row, a
one-row interval matrix and two labels, fit fails with IndexError, which
is not the ShapeMismatch the claim names. -/
theorem C4_shape_mismatch_counterexample :
    fit envQ cfgS [((0 : ℚ), (0 : ℚ))] [[0]] [0, 0] = Except.error PyErr.indexError ∧
    (Except.error PyErr.indexError : Except PyErr (VPS ℚ)) ≠
      Except.error PyErr.shapeMismatch := by
  constructor
  · simp [fit, labelW, buildW, Except.bind]
  · simp

/-- Witness for the amended C4 in both mismatch directions. -/
theorem C4_shape_mismatch_witness :
    (cfgS.split_train = true ∧
      ([((0 : ℚ), (0 : ℚ))]).length = ([[(0 : ℚ)]]).length) ∧
    (([[(0 : ℚ)]]).length < ([(0 : ℚ), 0]).length →
      fit envQ cfgS [((0 : ℚ), (0 : ℚ))] [[0]] [0, 0] = Except.error PyErr.indexError) ∧
    (([] : List ℚ).length < ([[(0 : ℚ)]]).length →
      fit envQ cfgS [((0 : ℚ), (0 : ℚ))] [[0]] [] = Except.error PyErr.valueError) :=
  ⟨⟨rfl, rfl⟩,
    (C4_shape_mismatch_behavior envQ cfgS [((0 : ℚ), (0 : ℚ))] [[0]] [0, 0] rfl rfl).1,
    (C4_shape_mismatch_behavior envQ cfgS [((0 : ℚ), (0 : ℚ))] [[0]] [] rfl rfl).2⟩

lemma selectLoop_acc (loss : α → α) :
    ∀ (cands : List α) (c : α),
      ∃ o, selectLoop loss cands (some (loss c, c)) = some (loss o, o) ∧
        ((o = c ∧ ∀ b ∈ cands, loss c ≤ loss b) ∨
         (∃ pre post, cands = pre ++ o :: post ∧ loss o < loss c ∧
            (∀ b ∈ pre, loss o < loss b) ∧ (∀ b ∈ post, loss o ≤ loss b))) := by
  intro cands
  induction cands with
  | nil => intro c; exact ⟨c, rfl, Or.inl ⟨rfl, by simp⟩⟩
  | cons a as ih =>
      intro c
      by_cases hac : loss a < loss c
      · obtain ⟨o, heq, hcase⟩ := ih a
        refine ⟨o, ?_, ?_⟩
        · simp [selectLoop, if_pos hac, heq]
        · rcases hcase with ⟨rfl, hall⟩ | ⟨pre, post, hsplit, hlt, hpre, hpost⟩
          · exact Or.inr ⟨[], as, rfl, hac, by simp, hall⟩
          · refine Or.inr ⟨a :: pre, post, by simp [hsplit], lt_trans hlt hac, ?_, hpost⟩
            intro b hb
            rcases List.mem_cons.mp hb with rfl | hb
            · exact hlt
            · exact hpre b hb
      · have hca : loss c ≤ loss a := not_lt.mp hac
        obtain ⟨o, heq, hcase⟩ := ih c
        refine ⟨o, ?_, ?_⟩
        · simp [selectLoop, if_neg hac, heq]
        · rcases hcase with ⟨rfl, hall⟩ | ⟨pre, post, hsplit, hlt, hpre, hpost⟩
          · refine Or.inl ⟨rfl, ?_⟩
            intro b hb
            rcases List.mem_cons.mp hb with rfl | hb
            · exact hca
            · exact hall b hb
          · refine Or.inr ⟨a :: pre, post, by simp [hsplit], hlt, ?_, hpost⟩
            intro b hb
            rcases List.mem_cons.mp hb with rfl | hb
            · exact lt_of_lt_of_le hlt hca
            · exact hpre b hb

lemma selectLoop_first_argmin (loss : α → α) (a : α) (as : List α) :
    ∃ pre o post, a :: as = pre ++ o :: post ∧
      selectLoop loss (a :: as) Option.none = some (loss o, o) ∧
      (∀ b ∈ pre, loss o < loss b) ∧ (∀ b ∈ a :: as, loss o ≤ loss b) := by
  obtain ⟨o, heq, hcase⟩ := selectLoop_acc loss as a
  have hstep : selectLoop loss (a :: as) Option.none =
      selectLoop loss as (some (loss a, a)) := rfl
  rcases hcase with ⟨rfl, hall⟩ | ⟨pre, post, hsplit, hlt, hpre, hpost⟩
  · refine ⟨[], o, as, rfl, by rw [hstep, heq], by simp, ?_⟩
    intro b hb
    rcases List.mem_cons.mp hb with rfl | hb
    · exact le_refl _
    · exact hall b hb
  · refine ⟨a :: pre, o, post, by simp [hsplit], by rw [hstep, heq], ?_, ?_⟩
    · intro b hb
      rcases List.mem_cons.mp hb with rfl | hb
      · exact hlt
      · exact hpre b hb
    · intro b hb
      rcases List.mem_cons.mp hb with rfl | hb
      · exact le_of_lt hlt
      · rw [hsplit] at hb
        rcases List.mem_append.mp hb with hb | hb
        · exact le_of_lt (hpre b hb)
        · rcases List.mem_cons.mp hb with rfl | hb
          · exact le_refl _
          · exact hpost b hb

/-- C5 amended: prune_tree walks the pruning-path candidates in the order
sklearn yields them, scores each by Brier loss on the held-out half, and
returns a candidate of minimal loss that strictly beats every candidate
before it (first-seen wins ties); when the path yields no candidates it
fails with the UnboundLocalError of returning the never-assigned
optim_ccp, not with a NoPruningCandidate error. -/
theorem C5_prune_selection (env : MLEnv α) (Xtr Xva : List (List α))
    (wtr wva : List α) :
    (env.cartPath Xtr wtr = [] →
      prune_tree env Xtr Xva wtr wva = Except.error PyErr.unboundLocalError) ∧
    (env.cartPath Xtr wtr ≠ [] →
      ∃ pre optim post, env.cartPath Xtr wtr = pre ++ optim :: post ∧
        prune_tree env Xtr Xva wtr wva = Except.ok optim ∧
        (∀ b ∈ pre, brier wva (env.cartPredict optim Xtr wtr Xva) <
          brier wva (env.cartPredict b Xtr wtr Xva)) ∧
        (∀ b ∈ env.cartPath Xtr wtr,
          brier wva (env.cartPredict optim Xtr wtr Xva) ≤
            brier wva (env.cartPredict b Xtr wtr Xva))) := by
  constructor
  · intro hpath
    simp [prune_tree, hpath, selectLoop]
  · intro hpath
    cases hcands : env.cartPath Xtr wtr with
    | nil => exact absurd hcands hpath
    | cons a as =>
        obtain ⟨pre, o, post, hsplit, heq, hpre, hall⟩ :=
          selectLoop_first_argmin (fun t => brier wva (env.cartPredict t Xtr wtr Xva)) a as
        refine ⟨pre, o, post, hsplit, ?_, hpre, ?_⟩
        · simp [prune_tree, hcands, heq]
        · intro b hb
          exact hall b hb

/-- C5 counterexample to the claim as stated: on an empty pruning path the
failure is UnboundLocalError, not NoPruningCandidate. -/
theorem C5_prune_counterexample :
    prune_tree envE [] [] [] [] = Except.error PyErr.unboundLocalError ∧
    (Except.error PyErr.unboundLocalError : Except PyErr ℚ) ≠
      Except.error PyErr.noPruningCandidate := by
  constructor
  · simp [prune_tree, envE, envQ, selectLoop]
  · simp

/-- Witness for the amended C5: envQ yields one pruning candidate, which
is selected. -/
theorem C5_prune_selection_witness :
    envQ.cartPath [] [] ≠ [] ∧
    (∃ pre optim post, envQ.cartPath [] [] = pre ++ optim :: post ∧
      prune_tree envQ [] [] [] [] = Except.ok optim ∧
      (∀ b ∈ pre, brier [] (envQ.cartPredict optim [] [] []) <
        brier [] (envQ.cartPredict b [] [] [])) ∧
      (∀ b ∈ envQ.cartPath [] [],
        brier [] (envQ.cartPredict optim [] [] []) ≤
          brier [] (envQ.cartPredict b [] [] []))) :=
  ⟨by simp [envQ], (C5_prune_selection envQ [] [] [] []).2 (by simp [envQ])⟩

/-- C1: evaluation of monte_carlo_test at a concrete fitted analysis.  The
code binds the PAIR compute_dif returns to t_obs, so the p-value line
broadcasts the length-B statistic vector against a length-2 array: with
B = 3 (as with the default B = 1000) the call crashes with the numpy
broadcast ValueError instead of returning the claimed fraction, and with
B = 2 the returned observed statistic is the pair, not the scalar mean
deviation. -/
theorem C1_observed_statistic_pair_bug :
    VPS.monte_carlo_test envQ s0 3 0 false = Except.error PyErr.valueError ∧
    VPS.monte_carlo_test envQ s0 2 0 false =
      Except.ok { pValue := 0, observed := ((0 : ℚ), (0 : ℚ)) } := by
  have hr3 : List.range 3 = [0, 1, 2] := rfl
  have hr2 : List.range 2 = [0, 1] := rfl
  constructor
  · norm_num [VPS.monte_carlo_test, VPS.compute_dif, VPS.predict, VPS.retrain,
      s0, envQ, constModel, CETag.isStrEq, posBranch, col1, getAttr, statOf,
      maxAbsDev, absDevs, npAbs, meanList, Except.bind, Except.map, hr3,
      collectE, broadcastGtMean, List.max?]
  · norm_num [VPS.monte_carlo_test, VPS.compute_dif, VPS.predict, VPS.retrain,
      s0, envQ, constModel, CETag.isStrEq, posBranch, col1, getAttr, statOf,
      maxAbsDev, absDevs, npAbs, meanList, Except.bind, Except.map, hr2,
      collectE, broadcastGtMean, indi, List.max?]

/-- C2: at a concrete fitted analysis the sequential and parallel modes of
bootstrap_ci are not semantically identical: every parallel repetition
submits the nine-entry argument tuple of the source (self.alpha is passed
twice) to the eight-parameter worker bootstrap_par, so the first collected
result re-raises a TypeError and the parallel call fails, while the
sequential call returns a bootstrap result. -/
theorem C2_parallel_bootstrap_typeerror :
    VPS.bootstrap_ci envQ s0 2 1 0 true = Except.error PyErr.typeError ∧
    (VPS.bootstrap_ci envQ s0 2 1 0 false).isOk = true := by
  have hr2 : List.range 2 = [0, 1] := rfl
  constructor
  · simp [VPS.bootstrap_ci, VPS.predict, s0, envQ, constModel, CETag.isStrEq,
      posBranch, col1, getAttr, statOf, Except.bind, Except.map, hr2,
      collectE, applyBootstrapPar]
  · simp [VPS.bootstrap_ci, VPS.predict, VPS.retrain, bootstrapRep, s0, envQ,
      constModel, CETag.isStrEq, posBranch, col1, getAttr, statOf,
      Except.bind, Except.map, hr2, collectE, randints, Except.isOk,
      Except.toBool]

/-- C6: each sequential bootstrap repetition draws exactly B resampling
indices (so the resample is sized at B, not at the training fold size),
every drawn index is a valid training-fold row, the resampled rows all
come from the training fold, the repetition refits on exactly those rows
and labels, and bootstrap_ci hands every repetition the same held-out
fold it used for the observed statistic.  The index draw of the worker
bootstrap_par is the same randints call with stream start 0. -/
theorem C6_bootstrap_resample (env : MLEnv α) (s : VPS α)
    (xt : List (List α)) (B i seed : ℕ) (hn : 0 < s.X_train.length) :
    (randints env seed (i * B) s.X_train.length B).length = B ∧
    (B ≠ s.X_train.length →
      (randints env seed (i * B) s.X_train.length B).length ≠ s.X_train.length) ∧
    (∀ start : ℕ, ∀ k ∈ randints env seed start s.X_train.length B,
      k < s.X_train.length) ∧
    (∀ row ∈ (randints env seed (i * B) s.X_train.length B).map
        (fun k => s.X_train.getD k []), row ∈ s.X_train) ∧
    (bootstrapRep env s xt B i seed =
      (s.retrain env
        ((randints env seed (i * B) s.X_train.length B).map
          (fun k => s.X_train.getD k []))
        ((randints env seed (i * B) s.X_train.length B).map
          (fun k => s.w_train.getD k 0)) xt).bind
        (fun r => statOf r (1 - s.alpha))) ∧
    (∀ sig : α, s.bootstrap_ci env B sig seed false =
      (getAttr s.X_test).bind (fun xt2 =>
        (s.predict xt2).bind (fun r =>
          (statOf r (1 - s.alpha)).bind (fun t_obs =>
            (collectE (fun i2 => bootstrapRep env s xt2 B i2 seed)
                (List.range B)).bind
              (fun t_vec => Except.ok (bootstrapIntervals env B sig t_obs t_vec)))))) := by
  have hbound : ∀ start : ℕ, ∀ k ∈ randints env seed start s.X_train.length B,
      k < s.X_train.length := by
    intro start k hk
    simp only [randints, List.mem_map, List.mem_range] at hk
    obtain ⟨j, _, rfl⟩ := hk
    exact Nat.mod_lt _ hn
  refine ⟨by simp [randints], ?_, hbound, ?_, rfl, fun sig => rfl⟩
  · intro hBn
    simpa [randints] using hBn
  · intro row hrow
    simp only [List.mem_map] at hrow
    obtain ⟨k, hk, rfl⟩ := hrow
    have hklt : k < s.X_train.length := hbound (i * B) k hk
    rw [List.getD_eq_getElem _ _ hklt]
    exact List.getElem_mem hklt

/-- Witness for C6 at a concrete fitted analysis. -/
theorem C6_bootstrap_resample_witness :
    0 < s0.X_train.length ∧
    ((randints envQ 0 (0 * 2) s0.X_train.length 2).length = 2 ∧
      (2 ≠ s0.X_train.length →
        (randints envQ 0 (0 * 2) s0.X_train.length 2).length ≠ s0.X_train.length) ∧
      (∀ start : ℕ, ∀ k ∈ randints envQ 0 start s0.X_train.length 2,
        k < s0.X_train.length) ∧
      (∀ row ∈ (randints envQ 0 (0 * 2) s0.X_train.length 2).map
          (fun k => s0.X_train.getD k []), row ∈ s0.X_train) ∧
      (bootstrapRep envQ s0 [[0]] 2 0 0 =
        (s0.retrain envQ
          ((randints envQ 0 (0 * 2) s0.X_train.length 2).map
            (fun k => s0.X_train.getD k []))
          ((randints envQ 0 (0 * 2) s0.X_train.length 2).map
            (fun k => s0.w_train.getD k 0)) [[0]]).bind
          (fun r => statOf r (1 - s0.alpha))) ∧
      (∀ sig : ℚ, s0.bootstrap_ci envQ 2 sig 0 false =
        (getAttr s0.X_test).bind (fun xt2 =>
          (s0.predict xt2).bind (fun r =>
            (statOf r (1 - s0.alpha)).bind (fun t_obs =>
              (collectE (fun i2 => bootstrapRep envQ s0 xt2 2 i2 0)
                  (List.range 2)).bind
                (fun t_vec => Except.ok (bootstrapIntervals envQ 2 sig t_obs t_vec))))))) :=
  ⟨by decide, C6_bootstrap_resample envQ s0 [[0]] 2 0 0 (by decide)⟩

lemma bootstrapIntervals_se (env : MLEnv α) (B : ℕ) (sig_b t_obs : α)
    (t_vec : List α)
    (hsqrt : ∀ x : α, 0 ≤ x → 0 ≤ env.sqrtFn x)
    (hppf : ∀ q : α, 1 / 2 ≤ q → 0 ≤ env.ppf q)
    (hB : 2 ≤ B) (hsig : sig_b ≤ 1) :
    (bootstrapIntervals env B sig_b t_obs t_vec).seInt.1 +
      (bootstrapIntervals env B sig_b t_obs t_vec).seInt.2 =
      2 * (bootstrapIntervals env B sig_b t_obs t_vec).tObs ∧
    (bootstrapIntervals env B sig_b t_obs t_vec).seInt.1 ≤
      (bootstrapIntervals env B sig_b t_obs t_vec).seInt.2 := by
  have hz : 0 ≤ env.ppf (1 - sig_b / 2) := hppf _ (by linarith)
  have hsum : 0 ≤ (t_vec.map (fun t => (t - meanList t_vec) ^ 2)).sum := by
    apply List.sum_nonneg
    intro x hx
    simp only [List.mem_map] at hx
    obtain ⟨t, _, rfl⟩ := hx
    positivity
  have hBcast : (2 : α) ≤ (B : α) := by exact_mod_cast hB
  have hfac : 0 ≤ 1 / ((B : α) - 1) := by
    have h1 : (0 : α) < (B : α) - 1 := by linarith
    positivity
  have he : 0 ≤ env.sqrtFn (1 / ((B : α) - 1) *
      (t_vec.map (fun t => (t - meanList t_vec) ^ 2)).sum) :=
    hsqrt _ (mul_nonneg hfac hsum)
  constructor
  · simp only [bootstrapIntervals]
    ring
  · simp only [bootstrapIntervals]
    have hme := mul_nonneg hz he
    linarith

/-- C8: whenever bootstrap_ci returns a result, its SE confidence interval
is t_obs plus and minus the standard-normal quantile at 1 - sig_b/2 times
the Bessel-corrected bootstrap standard deviation, hence symmetric about
the returned observed statistic and ordered, given the defining properties
of the external sqrt and quantile functions, at least two repetitions and
a significance level of at most one. -/
theorem C8_se_interval (env : MLEnv α) (s : VPS α) (B : ℕ) (sig_b : α)
    (seed : ℕ) (par : Bool) (r : BootResult α)
    (hsqrt : ∀ x : α, 0 ≤ x → 0 ≤ env.sqrtFn x)
    (hppf : ∀ q : α, 1 / 2 ≤ q → 0 ≤ env.ppf q)
    (hB : 2 ≤ B) (hsig : sig_b ≤ 1)
    (h : s.bootstrap_ci env B sig_b seed par = Except.ok r) :
    r.seInt.1 + r.seInt.2 = 2 * r.tObs ∧ r.seInt.1 ≤ r.seInt.2 := by
  simp only [VPS.bootstrap_ci] at h
  rcases exbind_ok.mp h with ⟨xt, hxt, h⟩
  rcases exbind_ok.mp h with ⟨r1, hr1, h⟩
  rcases exbind_ok.mp h with ⟨tobs, htobs, h⟩
  rcases exbind_ok.mp h with ⟨tvec, htvec, h⟩
  have hr : bootstrapIntervals env B sig_b tobs tvec = r := Except.ok.inj h
  rw [← hr]
  exact bootstrapIntervals_se env B sig_b tobs tvec hsqrt hppf hB hsig

/-- Witness for C8: a full concrete bootstrap run. -/
theorem C8_se_interval_witness :
    VPS.bootstrap_ci envQ s0 2 1 0 false =
      Except.ok (BootResult.mk (0 : ℚ) (0, 0) (0, 0)) ∧
    ((BootResult.mk (0 : ℚ) (0, 0) (0, 0)).seInt.1 +
        (BootResult.mk (0 : ℚ) (0, 0) (0, 0)).seInt.2 =
      2 * (BootResult.mk (0 : ℚ) (0, 0) (0, 0)).tObs ∧
      (BootResult.mk (0 : ℚ) (0, 0) (0, 0)).seInt.1 ≤
        (BootResult.mk (0 : ℚ) (0, 0) (0, 0)).seInt.2) := by
  have hr2 : List.range 2 = [0, 1] := rfl
  have hEval : VPS.bootstrap_ci envQ s0 2 1 0 false =
      Except.ok (BootResult.mk (0 : ℚ) (0, 0) (0, 0)) := by
    norm_num [VPS.bootstrap_ci, VPS.predict, VPS.retrain, bootstrapRep,
      bootstrapIntervals, s0, envQ, constModel, CETag.isStrEq, posBranch,
      col1, getAttr, statOf, absDevs, npAbs, meanList, Except.bind,
      Except.map, hr2, collectE, randints]
  refine ⟨hEval, ?_⟩
  exact C8_se_interval envQ s0 2 1 0 false (BootResult.mk (0 : ℚ) (0, 0) (0, 0))
    (fun x hx => by simpa [envQ] using hx)
    (fun q hq => by simp only [envQ]; linarith)
    (by decide) (by norm_num) hEval

/-- C10: fitting with split_train false stores only the training fold and
never creates the held-out attributes, compute_dif then succeeds by
evaluating on the training fold, and monte_carlo_test and bootstrap_ci
(in both execution modes) read the absent X_test attribute and fail with
AttributeError. -/
theorem C10_no_split_mode (env : MLEnv α) (cfg : VPSCfg α)
    (preds : List (α × α)) (X : List (List α)) (y : List α) (s : VPS α)
    (v : List α) (hsp : cfg.split_train = false)
    (hfit : fit env cfg preds X y = Except.ok s)
    (hv : s.predict s.X_train = Except.ok (PyVal.vec v)) (hvne : v ≠ [])
    (B seed : ℕ) (hB : 1 ≤ B) (sig : α) :
    s.X_test = Option.none ∧ s.w_test = Option.none ∧ s.X_train = X ∧
    (∃ t, s.compute_dif = Except.ok t) ∧
    s.monte_carlo_test env B seed false = Except.error PyErr.attributeError ∧
    s.monte_carlo_test env B seed true = Except.error PyErr.attributeError ∧
    s.bootstrap_ci env B sig seed false = Except.error PyErr.attributeError ∧
    s.bootstrap_ci env B sig seed true = Except.error PyErr.attributeError := by
  simp only [fit] at hfit
  rcases exbind_ok.mp hfit with ⟨w, hw, hfit⟩
  rw [hsp] at hfit
  simp only [Bool.false_eq_true, if_false] at hfit
  rcases exbind_ok.mp hfit with ⟨q, hq, hfit⟩
  have hq2 := (Except.ok.inj hq).symm
  subst hq2
  rcases exmap_ok.mp hfit with ⟨m, hm, hs⟩
  subst hs
  dsimp only at hv ⊢
  have hd : (absDevs (1 - cfg.alpha) v) ≠ [] := by
    simp [absDevs, hvne]
  obtain ⟨t, ht⟩ : ∃ t, (absDevs (1 - cfg.alpha) v).max? = some t := by
    rcases hmax : (absDevs (1 - cfg.alpha) v).max? with _ | t
    · exact absurd (List.max?_eq_none_iff.mp hmax) hd
    · exact ⟨t, rfl⟩
  have hcd : VPS.compute_dif
      { alpha := cfg.alpha, coverage_evaluator := cfg.coverage_evaluator,
        split_train := false, X_train := X, w_train := w,
        X_test := Option.none, w_test := Option.none, model := m } =
      Except.ok (meanList (absDevs (1 - cfg.alpha) v), t) := by
    simp only [VPS.compute_dif, Bool.false_eq_true, if_false] at hv ⊢
    simp [hv, statOf, maxAbsDev, ht, Except.bind, Except.map]
  refine ⟨rfl, rfl, rfl, ⟨_, hcd⟩, ?_, ?_, ?_, ?_⟩
  · cases B with
    | zero => omega
    | succ B2 =>
        simp [VPS.monte_carlo_test, hcd, Except.bind, List.range_succ_eq_map,
          collectE, getAttr]
  · cases B with
    | zero => omega
    | succ B2 =>
        simp [VPS.monte_carlo_test, hcd, Except.bind, List.range_succ_eq_map,
          collectE, getAttr]
  · simp [VPS.bootstrap_ci, getAttr, Except.bind]
  · simp [VPS.bootstrap_ci, getAttr, Except.bind]

/-- A concrete no-split fitted state, as produced by fit with cfgNS. -/
def sNS : VPS ℚ :=
  { alpha := 1, coverage_evaluator := CETag.str ("CART"), split_train := false,
    X_train := [[0]], w_train := [1], X_test := Option.none,
    w_test := Option.none, model := constModel }

/-- Witness for C10: a concrete no-split fit run. -/
theorem C10_no_split_mode_witness :
    (cfgNS.split_train = false ∧
      fit envQ cfgNS [((0 : ℚ), (0 : ℚ))] [[0]] [0] = Except.ok sNS ∧
      sNS.predict sNS.X_train = Except.ok (PyVal.vec [0]) ∧
      ([(0 : ℚ)]) ≠ [] ∧ 1 ≤ 1) ∧
    (sNS.X_test = Option.none ∧ sNS.w_test = Option.none ∧
      sNS.X_train = [[(0 : ℚ)]] ∧
      (∃ t, sNS.compute_dif = Except.ok t) ∧
      sNS.monte_carlo_test envQ 1 0 false = Except.error PyErr.attributeError ∧
      sNS.monte_carlo_test envQ 1 0 true = Except.error PyErr.attributeError ∧
      sNS.bootstrap_ci envQ 1 1 0 false = Except.error PyErr.attributeError ∧
      sNS.bootstrap_ci envQ 1 1 0 true = Except.error PyErr.attributeError) := by
  have hfit : fit envQ cfgNS [((0 : ℚ), (0 : ℚ))] [[0]] [0] = Except.ok sNS := by
    norm_num [fit, labelW, buildW, initCoverageEvaluator, cfgNS, envQ,
      CETag.isStrEq, Except.bind, Except.map, sNS]
  have hv : sNS.predict sNS.X_train = Except.ok (PyVal.vec [0]) := by
    simp [VPS.predict, sNS, constModel, CETag.isStrEq, posBranch, col1]
  exact ⟨⟨rfl, hfit, hv, by simp, le_refl 1⟩,
    C10_no_split_mode envQ cfgNS [((0 : ℚ), (0 : ℚ))] [[0]] [0] sNS [0]
      rfl hfit hv (by simp) 1 0 (le_refl 1) 1⟩
